import Mathlib

/-!
Verification of the bob directive-extraction core.

The repository ships two fixture source files annotated with an embedded
directive language (`uselibrary`, `usepackage`, `switch`, guarded
`{NAME} directive` lines).  The consuming build-configuration core
(directive parser, switch registry, guard resolver, build-plan
synthesizer) is described by the design document; it is embedded here,
faithful to that description, together with the verbatim fixture texts.
-/

namespace Bob

/-- Modelled from the spec: the closed set of directive kinds
(`UseLibrary`, `UsePackage`, `SwitchDecl`); the parser is the only place
a kind is inferred from string content. -/
inductive DirectiveKind
  | useLibrary
  | usePackage
  | switchDecl
  deriving DecidableEq, Repr

/-- Modelled from the spec: one parsed instruction from a comment line,
with its payload of whitespace-delimited string arguments, an optional
guard (a switch-name reference), and its source line for diagnostics. -/
structure Directive where
  kind : DirectiveKind
  payload : List String
  guard : Option String
  line : Nat
  deriving DecidableEq, Repr

/-- Modelled from the spec: per-line, non-fatal parse error kinds. -/
inductive ParseErrKind
  | malformedDirective
  | unknownDirective
  deriving DecidableEq, Repr

/-- Modelled from the spec: a collected diagnostic, surfaced with file
and line. -/
structure Diag where
  err : ParseErrKind
  file : String
  line : Nat
  deriving DecidableEq, Repr

/-- Modelled from the spec: fatal error kinds that abort a file's plan
resolution. -/
inductive FatalErr
  | duplicateSwitch (name : String)
  | unknownSwitch (name : String)
  deriving DecidableEq, Repr

/-- Result of parsing one line: ignored, a directive record, or a
per-line error. -/
inductive LineResult
  | ignored
  | directive (d : Directive)
  | error (e : ParseErrKind)
  deriving DecidableEq, Repr

/-- A character counting as whitespace for the whitespace-delimited
token grammar. -/
def isWS (c : Char) : Bool :=
  c = ' ' || c = '\t'

/-- Tokenizer worker: splits a character list on whitespace, the second
argument holding the (reversed) current token. -/
def tokenizeAux : List Char → List Char → List String
  | [], acc => if acc.isEmpty then [] else [acc.reverse.asString]
  | c :: cs, acc =>
    if isWS c then
      if acc.isEmpty then tokenizeAux cs []
      else acc.reverse.asString :: tokenizeAux cs []
    else tokenizeAux cs (c :: acc)

/-- Modelled from the spec: whitespace-delimited tokenization of a
directive line's content. -/
def tokenize (s : List Char) : List String :=
  tokenizeAux s []

/-- Drops the first list from the front of the second when it is an
initial run of it; `none` otherwise. -/
def dropMarker : List Char → List Char → Option (List Char)
  | [], s => some s
  | _, [] => none
  | p :: ps, c :: cs => if c = p then dropMarker ps cs else none

/-- The fixed comment-marker sequence introducing a directive, as
observed bit-exact in the fixtures: three slashes and a space at the
start of the line. -/
def marker : List Char :=
  ['/', '/', '/', ' ']

/-- The declared directive keywords. -/
def isKeyword (t : String) : Bool :=
  t = "uselibrary" || t = "usepackage" || t = "switch"

/-- Modelled from the spec: a switch default must parse as a boolean
token (`0`/`1`). -/
def parseBoolTok (t : String) : Option Bool :=
  if t = "0" then some false
  else if t = "1" then some true
  else none

/-- Modelled from the spec: recognizes a `\x7bNAME\x7d` guard token and
returns the switch name it references. -/
def guardSplit (t : String) : Option String :=
  match t.toList with
  | '\x7b' :: rest =>
    if rest.getLast? = some '\x7d' ∧ 2 ≤ rest.length then
      some rest.dropLast.asString
    else none
  | _ => none

/-- Modelled from the spec: the unguarded directive grammar, one line's
tokens to a record.  `uselibrary <name>` and `usepackage <name>` take one
identifier; `switch <NAME> <default>` requires a boolean default token,
else `MalformedDirective`; an unrecognized keyword is
`UnknownDirective`. -/
def parseBare (toks : List String) (ln : Nat) : LineResult :=
  match toks with
  | [] => .ignored
  | kw :: args =>
    if kw = "uselibrary" then
      match args with
      | [name] => .directive ⟨.useLibrary, [name], none, ln⟩
      | _ => .error .malformedDirective
    else if kw = "usepackage" then
      match args with
      | [name] => .directive ⟨.usePackage, [name], none, ln⟩
      | _ => .error .malformedDirective
    else if kw = "switch" then
      match args with
      | [name, dflt] =>
        match parseBoolTok dflt with
        | some _ => .directive ⟨.switchDecl, [name, dflt], none, ln⟩
        | none => .error .malformedDirective
      | _ => .error .malformedDirective
    else .error .unknownDirective

/-- Modelled from the spec: full token-level grammar, the
`\x7bNAME\x7d <directive>` form parsing the rest of the line as an
unguarded directive and attaching the guard; a guarded `switch`
declaration is unsupported and fails as `MalformedDirective`. -/
def parseToks (toks : List String) (ln : Nat) : LineResult :=
  match toks with
  | [] => .ignored
  | kw :: args =>
    match guardSplit kw with
    | some g =>
      match parseBare args ln with
      | .directive d =>
        if d.kind = .switchDecl then .error .malformedDirective
        else .directive { d with guard := some g }
      | r => r
    | none => parseBare toks ln

/-- Modelled from the spec: one source line.  Only a line beginning with
the fixed directive marker is a directive candidate; every other line
(ordinary comments, code, blank lines) is ignored. -/
def parseLine (line : String) (ln : Nat) : LineResult :=
  match dropMarker marker line.toList with
  | some rest => parseToks (tokenize rest) ln
  | none => .ignored

/-- Output of one file's parse: the directive records in source line
order, and the collected non-fatal diagnostics. -/
structure ParseOutput where
  directives : List Directive
  diags : List Diag
  deriving DecidableEq, Repr

/-- Modelled from the spec: parses the numbered lines of one file; a
per-line error is collected with file and line and parsing of the
remaining lines continues. -/
def parseLinesFrom (file : String) (ln : Nat) : List String → ParseOutput
  | [] => ⟨[], []⟩
  | l :: ls =>
    let rest := parseLinesFrom file (ln + 1) ls
    match parseLine l ln with
    | .ignored => rest
    | .directive d => ⟨d :: rest.directives, rest.diags⟩
    | .error e => ⟨rest.directives, ⟨e, file, ln⟩ :: rest.diags⟩

/-- Splits raw text into lines at newline characters. -/
def splitLinesAux : List Char → List Char → List String
  | [], acc => [acc.reverse.asString]
  | c :: cs, acc =>
    if c = '\n' then acc.reverse.asString :: splitLinesAux cs []
    else splitLinesAux cs (c :: acc)

/-- Splits a file's raw text into its lines. -/
def splitLines (s : String) : List String :=
  splitLinesAux s.toList []

/-- Modelled from the spec: the Directive Parser, raw text of one file
to its directive stream plus diagnostics, emission order equal to source
line order. -/
def parseFile (file : String) (text : String) : ParseOutput :=
  parseLinesFrom file 1 (splitLines text)

/-- First-match lookup in an association list of switch values. -/
def lookupA (m : List (String × Bool)) (k : String) : Option Bool :=
  match m with
  | [] => none
  | (a, b) :: rest => if a = k then some b else lookupA rest k

/-- Updates the value stored under a key in an association list,
leaving the list unchanged when the key is absent. -/
def setA : List (String × Bool) → String → Bool → List (String × Bool)
  | [], _, _ => []
  | (a, b) :: rest, k, v =>
    if a = k then (a, v) :: rest else (a, b) :: setA rest k v

/-- The switch declaration carried by a directive, if any: the declared
name and its default boolean. -/
def declaredDefault (d : Directive) : Option (String × Bool) :=
  match d.kind, d.payload with
  | .switchDecl, [name, tok] => (parseBoolTok tok).map (fun b => (name, b))
  | _, _ => none

/-- Modelled from the spec: the Switch Registry's insertion step.  A
re-declaration with an identical default is tolerated (idempotent); the
same name with a different default fails with `DuplicateSwitch`. -/
def addSwitch (reg : List (String × Bool)) (n : String) (b : Bool) :
    Except FatalErr (List (String × Bool)) :=
  match lookupA reg n with
  | none => .ok (reg ++ [(n, b)])
  | some b0 => if b0 = b then .ok reg else .error (.duplicateSwitch n)

/-- Registry collection worker over the directive stream. -/
def collectSwitchesAux (reg : List (String × Bool)) :
    List Directive → Except FatalErr (List (String × Bool))
  | [] => .ok reg
  | d :: ds =>
    match declaredDefault d with
    | none => collectSwitchesAux reg ds
    | some (n, b) =>
      match addSwitch reg n b with
      | .ok reg2 => collectSwitchesAux reg2 ds
      | .error e => .error e

/-- Modelled from the spec: the Switch Registry collects all
`SwitchDecl` directives of a file into a name-to-default mapping. -/
def collectSwitches (ds : List Directive) :
    Except FatalErr (List (String × Bool)) :=
  collectSwitchesAux [] ds

/-- Modelled from the spec: applies the caller's external override
mapping; an override naming an undeclared switch fails with
`UnknownSwitch`, otherwise the override value replaces the default. -/
def applyOverrides (reg : List (String × Bool)) :
    List (String × Bool) → Except FatalErr (List (String × Bool))
  | [] => .ok reg
  | (n, v) :: ovs =>
    match lookupA reg n with
    | none => .error (.unknownSwitch n)
    | some _ => applyOverrides (setA reg n v) ovs

/-- Modelled from the spec: the final `SwitchState` of one file's text
under an override mapping: override value if present, else declared
default. -/
def switchState (file : String) (text : String)
    (ovs : List (String × Bool)) : Except FatalErr (List (String × Bool)) :=
  match collectSwitches (parseFile file text).directives with
  | .error e => .error e
  | .ok reg => applyOverrides reg ovs

/-- Modelled from the spec: the Guard Resolver's action on one
directive.  No guard: passes through unchanged.  Guard `NAME`: passes
through with the guard stripped iff the switch state maps `NAME` to
true, is dropped when it maps it to false, and fails with
`UnknownSwitch` when `NAME` is not in the state.  -/
def guardStep (state : List (String × Bool)) (d : Directive) :
    Except FatalErr (Option Directive) :=
  match d.guard with
  | none => .ok (some d)
  | some n =>
    match lookupA state n with
    | none => .error (.unknownSwitch n)
    | some true => .ok (some { d with guard := none })
    | some false => .ok none

/-- Modelled from the spec: the Guard Resolver, filtering the directive
stream against the final switch state. -/
def resolveGuards (state : List (String × Bool)) :
    List Directive → Except FatalErr (List Directive)
  | [] => .ok []
  | d :: ds =>
    match guardStep state d with
    | .error e => .error e
    | .ok none => resolveGuards state ds
    | .ok (some d2) =>
      match resolveGuards state ds with
      | .error e => .error e
      | .ok r => .ok (d2 :: r)

/-- Modelled from the spec: the kind of a resolved build requirement. -/
inductive ReqKind
  | library
  | package
  deriving DecidableEq, Repr

/-- Modelled from the spec: a resolved, guard-stripped requirement of
one file: kind plus name. -/
structure BuildRequirement where
  kind : ReqKind
  name : String
  deriving DecidableEq, Repr

/-- The build requirement a resolved directive contributes:
`UseLibrary`/`UsePackage` yield `Library`/`Package`; `SwitchDecl`
directives are inert in the plan. -/
def reqOf (d : Directive) : Option BuildRequirement :=
  match d.kind, d.payload with
  | .useLibrary, [n] => some ⟨.library, n⟩
  | .usePackage, [n] => some ⟨.package, n⟩
  | _, _ => none

/-- Synthesizer fold worker: inserts each passing requirement at the
end of the accumulated plan, skipping insertion when an identical
kind-name pair is already present (first occurrence wins, later
duplicates are no-ops). -/
def synthAux (acc : List BuildRequirement) :
    List Directive → List BuildRequirement
  | [] => acc
  | d :: ds =>
    match reqOf d with
    | none => synthAux acc ds
    | some r => if r ∈ acc then synthAux acc ds else synthAux (acc ++ [r]) ds

/-- Modelled from the spec: the Build Plan Synthesizer, a pure fold of
the filtered directive stream into one file's deduplicated, ordered
requirement list. -/
def synthesize (ds : List Directive) : List BuildRequirement :=
  synthAux [] ds

/-- Modelled from the spec: the full per-file pipeline, raw text and
override mapping to the collected diagnostics and either a fatal error
(no plan emitted) or the file's build plan. -/
def pipeline (file : String) (text : String) (ovs : List (String × Bool)) :
    List Diag × Except FatalErr (List BuildRequirement) :=
  let p := parseFile file text
  (p.diags,
    match switchState file text ovs with
    | .error e => .error e
    | .ok state =>
      match resolveGuards state p.directives with
      | .error e => .error e
      | .ok kept => .ok (synthesize kept))

/-- The lines of `src/example-opengl.cpp`, embedded verbatim. -/
def openglLines : List String := [
  "/// uselibrary GL",
  "/// usepackage sdl",
  "#include <GL/gl.h>",
  "#include <SDL.h>",
  "",
  "int main()",
  "\x7b",
  "    if (SDL_Init(SDL_INIT_VIDEO) < 0)",
  "    \x7b",
  "        fprintf(stderr, \"Unable to initialize SDL: %s\\n\", SDL_GetError());",
  "        exit(1);",
  "    \x7d",
  "",
  "    const SDL_VideoInfo *vidinfo = SDL_GetVideoInfo();",
  "    printf(\"Screen resolution: %d x %d\\n\", vidinfo->current_w, vidinfo->current_h);    ",
  "        ",
  "    int flags = SDL_OPENGL | SDL_DOUBLEBUF | SDL_HWSURFACE;",
  "    SDL_Surface *surface;",
  "    ",
  "    surface = SDL_SetVideoMode(800, 600, 0, flags);        ",
  "    if (surface == NULL)",
  "    \x7b",
  "        fprintf(stderr, \"Unable to create OpenGL screen: %s\\n\", SDL_GetError());",
  "        SDL_Quit();",
  "        exit(-1);",
  "    \x7d    ",
  "    ",
  "    printf(\"Vendor: %s\\n\", glGetString(GL_VENDOR));",
  "    printf(\"Renderer: %s\\n\", glGetString(GL_RENDERER));",
  "    printf(\"Version: %s\\n\", glGetString(GL_VERSION));",
  "    printf(\"GLSL version: %s\\n\", glGetString(GL_SHADING_LANGUAGE_VERSION));",
  "    printf(\"Extensions: %s\\n\", glGetString(GL_EXTENSIONS));",
  "",
  "    SDL_Quit();",
  "    ",
  "    return 0;",
  "\x7d"]

/-- The raw text of `src/example-opengl.cpp` (the file ends with a
newline). -/
def openglText : String :=
  String.intercalate "\n" openglLines ++ "\n"

/-- The lines of `src/example-switch.cpp`, embedded verbatim. -/
def switchLines : List String := [
  "/// switch READLINE 0",
  "/// \x7bREADLINE\x7d uselibrary readline",
  "",
  "#include <cstdio>",
  "#ifdef USE_READLINE",
  "#include <readline/readline.h>",
  "#endif",
  "",
  "int main()",
  "\x7b",
  "#ifdef USE_READLINE",
  "    char *input = readline(\"What\x27s your name? \"); ",
  "    printf(\"Hi there, %s!\\n\", input);",
  "#else",
  "    printf(\"Hi John Doe!\\n\");",
  "#endif",
  "\x7d"]

/-- The raw text of `src/example-switch.cpp` (the file does not end with
a newline). -/
def switchText : String :=
  String.intercalate "\n" switchLines

/-- Character list of a concatenation of strings. -/
theorem toList_append (a b : String) : (a ++ b).toList = a.toList ++ b.toList := by
  simp [String.toList]

/-- Dropping the directive marker from a marker-initial character
list leaves the rest of the line. -/
theorem dropMarker_marker (t : List Char) :
    dropMarker marker ('/' :: '/' :: '/' :: ' ' :: t) = some t := by
  simp [marker, dropMarker]

/-- A line that does not begin with the directive marker is ignored. -/
theorem parseLine_ignored (l : String) (n : Nat)
    (h : dropMarker marker l.toList = none) : parseLine l n = .ignored := by
  unfold parseLine
  rw [h]

/-- C1: running the full pipeline on the text of the OpenGL/SDL example
file with an empty override map produces for that file exactly the plan
consisting of the requirements Library GL and Package sdl, both
unguarded, in source order (so in particular the plan is not the
Package-sdl-only plan). -/
theorem claim_C1_scenarioA_opengl_plan :
    (pipeline "example-opengl.cpp" openglText []).2 =
      .ok [⟨.library, "GL"⟩, ⟨.package, "sdl"⟩] := rfl

/-- C2: running the full pipeline on the text of the switch example file
with override READLINE=false, or with no override at all, yields an empty
plan; with override READLINE=true it yields exactly the plan consisting
of the requirement Library readline. -/
theorem claim_C2_scenarioB_switch_plan :
    (pipeline "example-switch.cpp" switchText [("READLINE", false)]).2 = .ok []
    ∧ (pipeline "example-switch.cpp" switchText []).2 = .ok []
    ∧ (pipeline "example-switch.cpp" switchText [("READLINE", true)]).2 =
        .ok [⟨.library, "readline"⟩] :=
  ⟨rfl, rfl, rfl⟩

/-- C3: the Guard Resolver passes a directive with no guard through
unchanged; a directive with guard NAME whose name is mapped by the final
switch state passes through with the guard stripped iff the state maps
NAME to true and is dropped otherwise; and the stream-level resolver
treats each directive by exactly this per-directive step. -/
theorem claim_C3_guard_resolution (state : List (String × Bool)) (d : Directive) :
    (d.guard = none → guardStep state d = .ok (some d))
    ∧ (∀ (n : String) (b : Bool), d.guard = some n → lookupA state n = some b →
        guardStep state d =
          .ok (if b then some { d with guard := none } else none))
    ∧ ∀ ds : List Directive, resolveGuards state (d :: ds) =
        (match guardStep state d with
         | .error e => .error e
         | .ok none => resolveGuards state ds
         | .ok (some d2) =>
           match resolveGuards state ds with
           | .error e => .error e
           | .ok r => .ok (d2 :: r)) := by
  refine ⟨fun h => ?_, fun n b h1 h2 => ?_, fun ds => rfl⟩
  · unfold guardStep
    rw [h]
  · cases b <;> simp [guardStep, h1, h2]

/-- Witness for C3 at concrete inputs: a guard on a true switch passes
stripped, a guard on a false switch is dropped, and an unguarded
directive passes unchanged. -/
theorem claim_C3_guard_resolution_witness :
    guardStep [("A", true)] ⟨.useLibrary, ["x"], some "A", 2⟩ =
      .ok (some ⟨.useLibrary, ["x"], none, 2⟩)
    ∧ guardStep [("A", false)] ⟨.useLibrary, ["x"], some "A", 2⟩ = .ok none
    ∧ guardStep [] ⟨.usePackage, ["y"], none, 5⟩ =
        .ok (some ⟨.usePackage, ["y"], none, 5⟩) :=
  ⟨(claim_C3_guard_resolution [("A", true)] ⟨.useLibrary, ["x"], some "A", 2⟩).2.1
      "A" true rfl rfl,
   (claim_C3_guard_resolution [("A", false)] ⟨.useLibrary, ["x"], some "A", 2⟩).2.1
      "A" false rfl rfl,
   (claim_C3_guard_resolution [] ⟨.usePackage, ["y"], none, 5⟩).1 rfl⟩

/-- C7: for a fixed source text and override map the full pipeline is
deterministic (two runs give the identical result), and synthesis is a
pure function of the directive stream. -/
theorem claim_C7_determinism (file text : String) (ovs : List (String × Bool)) :
    pipeline file text ovs = pipeline file text ovs
    ∧ ∀ ds : List Directive, synthesize ds = synthesize ds :=
  ⟨rfl, fun _ => rfl⟩

/-- C10: in both fixture files the comment-marker sequence introducing a
directive is exactly three slashes and a space at the start of the line;
parsing each fixture yields directives only from its two opening comment
lines (uselibrary GL and usepackage sdl at lines 1-2 of the OpenGL
fixture; the switch declaration and the READLINE-guarded uselibrary at
lines 1-2 of the switch fixture) with no diagnostics, and every other
line of both files produces no directive record. -/
theorem claim_C10_fixture_directives :
    (openglLines.take 2 ++ switchLines.take 2).all
        (fun l => (dropMarker marker l.toList).isSome) = true
    ∧ parseFile "example-opengl.cpp" openglText =
        ⟨[⟨.useLibrary, ["GL"], none, 1⟩, ⟨.usePackage, ["sdl"], none, 2⟩], []⟩
    ∧ parseFile "example-switch.cpp" switchText =
        ⟨[⟨.switchDecl, ["READLINE", "0"], none, 1⟩,
          ⟨.useLibrary, ["readline"], some "READLINE", 2⟩], []⟩
    ∧ ∀ l ∈ openglLines.drop 2 ++ switchLines.drop 2 ++ [""],
        ∀ n : Nat, parseLine l n = .ignored := by
  refine ⟨by decide, rfl, rfl, ?_⟩
  have h : ∀ l ∈ openglLines.drop 2 ++ switchLines.drop 2 ++ [""],
      dropMarker marker l.toList = none := by decide
  intro l hl n
  exact parseLine_ignored l n (h l hl)

/-- Witness for C10's per-line clause at a concrete input: the first
code line of the OpenGL fixture yields no directive record. -/
theorem claim_C10_fixture_directives_witness :
    parseLine "#include <GL/gl.h>" 3 = .ignored :=
  claim_C10_fixture_directives.2.2.2 "#include <GL/gl.h>" (by decide) 3

/-- Updating a present key stores the new value. -/
theorem lookupA_setA_self (reg : List (String × Bool)) (k : String)
    (v b0 : Bool) (h : lookupA reg k = some b0) :
    lookupA (setA reg k v) k = some v := by
  induction reg with
  | nil => simp [lookupA] at h
  | cons p rest ih =>
    obtain ⟨a, b⟩ := p
    by_cases hak : a = k
    · subst hak
      simp [setA, lookupA]
    · simp only [lookupA, if_neg hak] at h
      simp only [setA, if_neg hak, lookupA, if_neg hak]
      exact ih h

/-- Updating one key leaves every other key's value unchanged. -/
theorem lookupA_setA_ne (reg : List (String × Bool)) (k n : String)
    (v : Bool) (h : k ≠ n) :
    lookupA (setA reg k v) n = lookupA reg n := by
  induction reg with
  | nil => simp [setA]
  | cons p rest ih =>
    obtain ⟨a, b⟩ := p
    by_cases hak : a = k
    · subst hak
      simp only [setA, if_pos rfl, lookupA, if_neg h]
    · simp only [setA, if_neg hak, lookupA]
      by_cases han : a = n
      · rw [if_pos han, if_pos han]
      · rw [if_neg han, if_neg han]
        exact ih

/-- A key outside the stored keys looks up to nothing. -/
theorem lookupA_eq_none (l : List (String × Bool)) (n : String)
    (h : n ∉ l.map Prod.fst) : lookupA l n = none := by
  induction l with
  | nil => rfl
  | cons p rest ih =>
    obtain ⟨a, b⟩ := p
    simp only [List.map_cons, List.mem_cons] at h
    push_neg at h
    have hne : a ≠ n := fun hak => h.1 hak.symm
    simp only [lookupA, if_neg hne]
    exact ih h.2

/-- Override application resolves every declared switch to its override
value when one is present and to its declared value otherwise. -/
theorem applyOverrides_sound (ovs : List (String × Bool)) :
    ∀ (reg st : List (String × Bool)), applyOverrides reg ovs = .ok st →
      (ovs.map Prod.fst).Nodup →
      ∀ (n : String) (b : Bool), lookupA reg n = some b →
        lookupA st n = some ((lookupA ovs n).getD b) := by
  induction ovs with
  | nil =>
    intro reg st h _ n b hb
    simp only [applyOverrides] at h
    cases h
    simpa [lookupA] using hb
  | cons p rest ih =>
    intro reg st h hnd n b hb
    obtain ⟨m, v⟩ := p
    simp only [applyOverrides] at h
    cases hm : lookupA reg m with
    | none => rw [hm] at h; cases h
    | some w =>
      rw [hm] at h
      simp only [List.map_cons, List.nodup_cons] at hnd
      by_cases hnm : n = m
      · subst hnm
        have hset : lookupA (setA reg n v) n = some v :=
          lookupA_setA_self reg n v w hm
        have := ih (setA reg n v) st h hnd.2 n v hset
        have hrest : lookupA rest n = none := by
          apply lookupA_eq_none
          exact hnd.1
        rw [hrest] at this
        simpa [lookupA] using this
      · have hset : lookupA (setA reg m v) n = some b := by
          rw [lookupA_setA_ne reg m n v (Ne.symm hnm)]
          exact hb
        have := ih (setA reg m v) st h hnd.2 n b hset
        simpa [lookupA, if_neg (Ne.symm hnm)] using this

/-- C4: for every declared switch the final switch state equals the
external override value when an override for that name is present and
the declared default otherwise; in particular the switch fixture, which
declares `switch READLINE 0`, resolves READLINE to false under an empty
override map. -/
theorem claim_C4_switch_state_resolution :
    (∀ (reg ovs st : List (String × Bool)) (n : String) (b : Bool),
        applyOverrides reg ovs = .ok st → (ovs.map Prod.fst).Nodup →
        lookupA reg n = some b →
        lookupA st n = some ((lookupA ovs n).getD b))
    ∧ switchState "example-switch.cpp" switchText [] = .ok [("READLINE", false)] :=
  ⟨fun reg ovs st n b h1 h2 h3 => applyOverrides_sound ovs reg st h1 h2 n b h3,
   rfl⟩

/-- Witness for C4 at concrete inputs: an override changes a declared
switch's value, and an unoverridden switch keeps its default. -/
theorem claim_C4_switch_state_resolution_witness :
    lookupA [("A", true), ("B", false)] "A" = some true
    ∧ lookupA [("A", true), ("B", false)] "B" = some false :=
  ⟨claim_C4_switch_state_resolution.1 [("A", false), ("B", false)]
      [("A", true)] [("A", true), ("B", false)] "A" false rfl (by decide) rfl,
   claim_C4_switch_state_resolution.1 [("A", false), ("B", false)]
      [("A", true)] [("A", true), ("B", false)] "B" false rfl (by decide) rfl⟩

/-- C8: a second declaration of a switch name with a different default
fails the registry with DuplicateSwitch and the file's plan synthesis is
aborted (pipeline returns the error, no plan), while re-declaration
with the identical default is an idempotent no-op and the file still
resolves to a plan. -/
theorem claim_C8_duplicate_switch :
    (∀ (reg : List (String × Bool)) (n : String) (b v : Bool),
        lookupA reg n = some b → b ≠ v →
        addSwitch reg n v = .error (.duplicateSwitch n))
    ∧ (∀ (reg : List (String × Bool)) (n : String) (b : Bool),
        lookupA reg n = some b → addSwitch reg n b = .ok reg)
    ∧ (pipeline "f.cpp" "/// switch A 0\n/// switch A 1\n/// uselibrary x" []).2
        = .error (.duplicateSwitch "A")
    ∧ (pipeline "f.cpp" "/// switch A 0\n/// switch A 0\n/// uselibrary x" []).2
        = .ok [⟨.library, "x"⟩] := by
  refine ⟨fun reg n b v h1 h2 => ?_, fun reg n b h1 => ?_, rfl, rfl⟩
  · simp [addSwitch, h1, h2]
  · simp [addSwitch, h1]

/-- Witness for C8 at concrete inputs: conflicting re-declaration errors,
identical re-declaration is tolerated. -/
theorem claim_C8_duplicate_switch_witness :
    addSwitch [("A", false)] "A" true = .error (.duplicateSwitch "A")
    ∧ addSwitch [("A", false)] "A" false = .ok [("A", false)] :=
  ⟨claim_C8_duplicate_switch.1 [("A", false)] "A" false true rfl (by decide),
   claim_C8_duplicate_switch.2.1 [("A", false)] "A" false rfl⟩

/-- Updating a value does not change the stored keys. -/
theorem setA_map_fst (reg : List (String × Bool)) (k : String) (v : Bool) :
    (setA reg k v).map Prod.fst = reg.map Prod.fst := by
  induction reg with
  | nil => rfl
  | cons p rest ih =>
    obtain ⟨a, b⟩ := p
    by_cases hak : a = k
    · subst hak
      simp [setA]
    · simp [setA, if_neg hak, ih]

/-- A lookup misses exactly when the key is outside the stored keys. -/
theorem lookupA_none_iff (l : List (String × Bool)) (n : String) :
    lookupA l n = none ↔ n ∉ l.map Prod.fst := by
  induction l with
  | nil => simp [lookupA]
  | cons p rest ih =>
    obtain ⟨a, b⟩ := p
    by_cases hak : a = n
    · subst hak
      simp [lookupA]
    · have hna : ¬(n = a) := fun h2 => hak h2.symm
      simp [lookupA, if_neg hak, ih, hna]

/-- An override mentioning a key the registry does not hold makes
override application fail with UnknownSwitch for some undeclared name. -/
theorem applyOverrides_unknown (ovs : List (String × Bool)) :
    ∀ (reg : List (String × Bool)) (n : String) (v : Bool),
      (n, v) ∈ ovs → lookupA reg n = none →
      ∃ m, applyOverrides reg ovs = .error (.unknownSwitch m)
        ∧ lookupA reg m = none := by
  induction ovs with
  | nil =>
    intro reg n v hmem _
    simp at hmem
  | cons p rest ih =>
    intro reg n v hmem hn
    obtain ⟨k, w⟩ := p
    cases hk : lookupA reg k with
    | none => exact ⟨k, by simp [applyOverrides, hk], hk⟩
    | some w0 =>
      rcases List.mem_cons.mp hmem with heq | hmem2
      · injection heq with h1 h2
        rw [h1] at hn
        rw [hn] at hk
        cases hk
      · have hn2 : lookupA (setA reg k w) n = none := by
          rw [lookupA_none_iff] at hn ⊢
          rw [setA_map_fst]
          exact hn
        obtain ⟨m, hm1, hm2⟩ := ih (setA reg k w) n v hmem2 hn2
        refine ⟨m, by simp [applyOverrides, hk, hm1], ?_⟩
        rw [lookupA_none_iff] at hm2 ⊢
        rw [setA_map_fst] at hm2
        exact hm2

/-- A guard in the stream referencing a name the switch state does not
hold makes guard resolution fail with UnknownSwitch for some name absent
from the state. -/
theorem resolveGuards_unknown (ds : List Directive) :
    ∀ (state : List (String × Bool)) (d : Directive) (n : String),
      d ∈ ds → d.guard = some n → lookupA state n = none →
      ∃ m, resolveGuards state ds = .error (.unknownSwitch m)
        ∧ lookupA state m = none := by
  induction ds with
  | nil =>
    intro state d n hmem _ _
    simp at hmem
  | cons d0 rest ih =>
    intro state d n hmem hg hn
    cases hg0 : d0.guard with
    | none =>
      have hstep : guardStep state d0 = .ok (some d0) := by simp [guardStep, hg0]
      rcases List.mem_cons.mp hmem with heq | hmem2
      · subst heq
        rw [hg0] at hg
        cases hg
      · obtain ⟨m, hm1, hm2⟩ := ih state d n hmem2 hg hn
        exact ⟨m, by simp [resolveGuards, hstep, hm1], hm2⟩
    | some k =>
      cases hk : lookupA state k with
      | none =>
        refine ⟨k, ?_, hk⟩
        have hstep : guardStep state d0 = .error (.unknownSwitch k) := by
          simp [guardStep, hg0, hk]
        simp [resolveGuards, hstep]
      | some bv =>
        have hne : ¬(d = d0) := by
          intro he
          subst he
          rw [hg0] at hg
          cases hg
          rw [hk] at hn
          cases hn
        rcases List.mem_cons.mp hmem with heq | hmem2
        · exact absurd heq hne
        · obtain ⟨m, hm1, hm2⟩ := ih state d n hmem2 hg hn
          refine ⟨m, ?_, hm2⟩
          cases bv
          · have hstep : guardStep state d0 = .ok none := by
              simp [guardStep, hg0, hk]
            simp [resolveGuards, hstep, hm1]
          · have hstep : guardStep state d0 = .ok (some { d0 with guard := none }) := by
              simp [guardStep, hg0, hk]
            simp [resolveGuards, hstep, hm1]

/-- C5: a guard, or an external override, referencing a switch name with
no matching declaration fails resolution with UnknownSwitch (never
silently treated as false), and at pipeline level no plan is emitted for
such a file. -/
theorem claim_C5_unknown_switch :
    (∀ (reg ovs : List (String × Bool)) (n : String) (v : Bool),
        (n, v) ∈ ovs → lookupA reg n = none →
        ∃ m, applyOverrides reg ovs = .error (.unknownSwitch m)
          ∧ lookupA reg m = none)
    ∧ (∀ (state : List (String × Bool)) (ds : List Directive) (d : Directive)
        (n : String), d ∈ ds → d.guard = some n → lookupA state n = none →
        ∃ m, resolveGuards state ds = .error (.unknownSwitch m)
          ∧ lookupA state m = none)
    ∧ (pipeline "f.cpp" "/// \x7bFOO\x7d uselibrary x" []).2 =
        .error (.unknownSwitch "FOO")
    ∧ (pipeline "f.cpp" "/// switch A 0" [("FOO", true)]).2 =
        .error (.unknownSwitch "FOO") :=
  ⟨fun reg ovs n v h1 h2 => applyOverrides_unknown ovs reg n v h1 h2,
   fun state ds d n h1 h2 h3 => resolveGuards_unknown ds state d n h1 h2 h3,
   rfl, rfl⟩

/-- Witness for C5 at concrete inputs: an undeclared override name and
an undeclared guard name both fail with UnknownSwitch. -/
theorem claim_C5_unknown_switch_witness :
    (∃ m, applyOverrides [("A", true)] [("B", false)] =
        .error (FatalErr.unknownSwitch m) ∧ lookupA [("A", true)] m = none)
    ∧ (∃ m, resolveGuards [("A", true)] [⟨.useLibrary, ["x"], some "G", 1⟩] =
        .error (FatalErr.unknownSwitch m) ∧ lookupA [("A", true)] m = none) :=
  ⟨claim_C5_unknown_switch.1 [("A", true)] [("B", false)] "B" false
      (by decide) rfl,
   claim_C5_unknown_switch.2.1 [("A", true)] [⟨.useLibrary, ["x"], some "G", 1⟩]
      ⟨.useLibrary, ["x"], some "G", 1⟩ "G" (by decide) rfl rfl⟩

/-- Keep-first deduplication of a requirement stream, stated directly
from the spec's wording (the first occurrence of a pair is kept, every
later duplicate is removed, first-appearance order is preserved); used
to characterize the synthesizer fold. -/
def firstDedup : List BuildRequirement → List BuildRequirement
  | [] => []
  | r :: rs => r :: firstDedup (rs.filter (fun x => decide (x ≠ r)))
termination_by l => l.length
decreasing_by
  simp only [List.length_cons]
  exact Nat.lt_succ_of_le (List.length_filter_le _ rs)

/-- Unfolding equation of `firstDedup` on the empty stream. -/
theorem firstDedup_nil : firstDedup [] = [] := by
  rw [firstDedup]

/-- Unfolding equation of `firstDedup` on a cons. -/
theorem firstDedup_cons (r : BuildRequirement) (rs : List BuildRequirement) :
    firstDedup (r :: rs) = r :: firstDedup (rs.filter (fun x => decide (x ≠ r))) := by
  rw [firstDedup]

/-- The deduplicated stream only holds elements of the stream. -/
theorem mem_firstDedup (x : BuildRequirement) :
    ∀ l : List BuildRequirement, x ∈ firstDedup l → x ∈ l := by
  intro l
  induction l using firstDedup.induct with
  | case1 => simp [firstDedup_nil]
  | case2 r rs ih =>
    rw [firstDedup_cons]
    intro h
    rcases List.mem_cons.mp h with h1 | h2
    · exact h1 ▸ List.mem_cons_self _ _
    · exact List.mem_cons_of_mem _ (List.mem_filter.mp (ih h2)).1

/-- Keep-first deduplication yields a stream with no duplicates. -/
theorem nodup_firstDedup : ∀ l : List BuildRequirement, (firstDedup l).Nodup := by
  intro l
  induction l using firstDedup.induct with
  | case1 => simp [firstDedup_nil]
  | case2 r rs ih =>
    rw [firstDedup_cons]
    refine List.nodup_cons.mpr ⟨fun hmem => ?_, ih⟩
    have h2 := List.mem_filter.mp (mem_firstDedup r _ hmem)
    simp at h2

/-- The synthesizer fold from any accumulated plan equals that plan
followed by the keep-first deduplication of the not-yet-present part of
the requirement stream. -/
theorem synthAux_eq (ds : List Directive) :
    ∀ acc : List BuildRequirement,
      synthAux acc ds =
        acc ++ firstDedup ((ds.filterMap reqOf).filter
          (fun r => decide (r ∉ acc))) := by
  induction ds with
  | nil =>
    intro acc
    simp [synthAux, firstDedup_nil]
  | cons d rest ih =>
    intro acc
    cases hr : reqOf d with
    | none =>
      simp only [synthAux, hr, List.filterMap_cons]
      exact ih acc
    | some r =>
      by_cases hmem : r ∈ acc
      · simp only [synthAux, hr, if_pos hmem]
        rw [ih acc]
        congr 1
        simp only [List.filterMap_cons, hr]
        rw [List.filter_cons]
        simp [hmem]
      · simp only [synthAux, hr, if_neg hmem]
        rw [ih (acc ++ [r])]
        simp only [List.filterMap_cons, hr]
        rw [List.filter_cons]
        have hp : decide (r ∉ acc) = true := decide_eq_true hmem
        rw [hp, if_pos rfl, firstDedup_cons, List.filter_filter]
        have hcong : List.filter (fun a => decide (a ∉ acc ++ [r]))
              (rest.filterMap reqOf) =
            List.filter (fun a => decide (a ≠ r) && decide (a ∉ acc))
              (rest.filterMap reqOf) := by
          apply List.filter_congr
          intro x _
          rw [← Bool.decide_and]
          apply decide_eq_decide.mpr
          simp only [List.mem_append, List.mem_singleton, not_or]
          constructor
          · intro h
            exact ⟨h.2, h.1⟩
          · intro h
            exact ⟨h.2, h.1⟩
        rw [hcong]
        simp [List.append_assoc]

/-- C6: every synthesized plan is exactly the keep-first deduplication
of the file's requirement stream, so the same kind-name pair appears at
most once, the first occurrence in source order wins with later
duplicates as no-ops, and first-appearance order is preserved; in
particular a file whose stream is `uselibrary GL` twice yields exactly
one Library GL requirement. -/
theorem claim_C6_idempotent_dedup :
    (∀ ds : List Directive, synthesize ds = firstDedup (ds.filterMap reqOf))
    ∧ (∀ ds : List Directive, (synthesize ds).Nodup)
    ∧ synthesize [⟨.useLibrary, ["GL"], none, 1⟩, ⟨.useLibrary, ["GL"], none, 2⟩]
        = [⟨.library, "GL"⟩] := by
  have h1 : ∀ ds : List Directive,
      synthesize ds = firstDedup (ds.filterMap reqOf) := by
    intro ds
    unfold synthesize
    rw [synthAux_eq ds []]
    have h2 : (ds.filterMap reqOf).filter
        (fun r => decide (r ∉ ([] : List BuildRequirement)))
        = ds.filterMap reqOf := by
      apply List.filter_eq_self.mpr
      intro a _
      simp
    rw [h2]
    rfl
  refine ⟨h1, fun ds => ?_, rfl⟩
  rw [h1]
  exact nodup_firstDedup _

/-- C9: a comment line that is not a directive line (its content after
the comment marker does not begin with a directive keyword) produces no
directive record and no error; a line whose directive comment prefix is
immediately followed by an unrecognized keyword fails with
UnknownDirective, and such an error is collected with file and line
while parsing of the remaining lines continues unaffected. -/
theorem claim_C9_parser_line_handling :
    (∀ (s : String) (n : Nat),
        (∀ kw ∈ (tokenize s.toList).take 1, isKeyword kw = false) →
        parseLine ("// " ++ s) n = .ignored)
    ∧ (∀ (rest kw : String) (args : List String) (n : Nat),
        tokenize rest.toList = kw :: args → isKeyword kw = false →
        guardSplit kw = none →
        parseLine ("/// " ++ rest) n = .error .unknownDirective)
    ∧ (∀ (file l : String) (ls : List String) (n : Nat) (e : ParseErrKind),
        parseLine l n = .error e →
        parseLinesFrom file n (l :: ls) =
          ⟨(parseLinesFrom file (n + 1) ls).directives,
           ⟨e, file, n⟩ :: (parseLinesFrom file (n + 1) ls).diags⟩) := by
  refine ⟨fun s n _ => ?_, fun rest kw args n h1 h2 h3 => ?_,
    fun file l ls n e h => ?_⟩
  · apply parseLine_ignored
    rw [toList_append]
    rfl
  · have h4 : ("/// " ++ rest).toList = '/' :: '/' :: '/' :: ' ' :: rest.toList := by
      rw [toList_append]
      rfl
    have k1 : ¬(kw = "uselibrary") := by
      intro hx
      rw [hx] at h2
      simp [isKeyword] at h2
    have k2 : ¬(kw = "usepackage") := by
      intro hx
      rw [hx] at h2
      simp [isKeyword] at h2
    have k3 : ¬(kw = "switch") := by
      intro hx
      rw [hx] at h2
      simp [isKeyword] at h2
    simp only [parseLine, h4, dropMarker_marker, h1]
    simp [parseToks, parseBare, h3, k1, k2, k3]
  · simp [parseLinesFrom, h]

/-- Witness for C9 at concrete inputs: an ordinary comment is ignored,
an unknown keyword after the directive prefix errors, and the error is
collected while the following line still parses. -/
theorem claim_C9_parser_line_handling_witness :
    parseLine ("// " ++ "just a note") 7 = .ignored
    ∧ parseLine ("/// " ++ "frobnicate x") 3 = .error .unknownDirective
    ∧ parseLinesFrom "f.cpp" 1 ["/// frobnicate x", "/// uselibrary GL"] =
        ⟨[⟨.useLibrary, ["GL"], none, 2⟩],
         [⟨.unknownDirective, "f.cpp", 1⟩]⟩ := by
  refine ⟨?_, ?_, ?_⟩
  · exact claim_C9_parser_line_handling.1 "just a note" 7 (by decide)
  · exact claim_C9_parser_line_handling.2.1 "frobnicate x" "frobnicate" ["x"] 3
      (by decide) (by decide) (by decide)
  · rw [claim_C9_parser_line_handling.2.2 "f.cpp" "/// frobnicate x"
      ["/// uselibrary GL"] 1 .unknownDirective (by decide)]
    rfl

end Bob
